import Mathlib

/-!
Shallow embedding of `src/tsk3/img/img_open.c` (The Sleuth Kit image-open
dispatcher).  The format backends (aff_open, ewf_open, raw_open, split_open),
the stat call and strerror are external collaborators of this file; they are
modelled as parameters collected in a `Backends` structure.  The process-wide
error context (tsk_errno / tsk_errstr / tsk_errstr2) is threaded explicitly.
The build modelled is the one the claims are about: both HAVE_LIBAFFLIB and
HAVE_LIBEWF compiled in; the TSK_WIN32/__CYGWIN__ conditional is a boolean
parameter `win`.  The result additionally records, in order, which backend
entry points were invoked and which handles were closed, so that claims about
"backend never attempted" and "no leaked handle" can be stated.
-/

/-- TSK_IMG_TYPE_ENUM from the tsk3 image layer (values of tsk_img.h). -/
inductive TSK_IMG_TYPE_ENUM where
  | DETECT
  | RAW_SING
  | RAW_SPLIT
  | AFF_AFF
  | AFF_AFD
  | AFF_AFM
  | AFF_ANY
  | EWF_EWF
  | UNSUPP
deriving DecidableEq

/-- Numeric value of each type tag, used by the UNSUPTYPE message (%d). -/
def imgTypeCode : TSK_IMG_TYPE_ENUM → Nat
  | .DETECT => 0
  | .RAW_SING => 1
  | .RAW_SPLIT => 2
  | .AFF_AFF => 4
  | .AFF_AFD => 8
  | .AFF_AFM => 16
  | .AFF_ANY => 32
  | .EWF_EWF => 64
  | .UNSUPP => 65535

/-- tsk_errno values relevant to img_open.c; `backend n` stands for any other
nonzero code set by a backend during a genuine failure. -/
inductive TskErrno where
  | noerr
  | img_nofile
  | img_arg
  | img_stat
  | img_unktype
  | img_unsuptype
  | img_convert
  | backend (n : Nat)
deriving DecidableEq

/-- The process-wide error context: tsk_errno, tsk_errstr, tsk_errstr2. -/
structure ErrCtx where
  errno : TskErrno
  errstr : String
  errstr2 : String
deriving DecidableEq

/-- tsk_error_reset(): clears the code and both message buffers. -/
def tsk_error_reset : ErrCtx := ⟨.noerr, "", ""⟩

/-- A TSK_IMG_INFO handle: an identity (the pointer) plus its itype field. -/
structure TSK_IMG_INFO where
  id : Nat
  itype : TSK_IMG_TYPE_ENUM
deriving DecidableEq

/-- The external collaborators of img_open.c.  Each probe-and-open entry point
receives the error context in force at the call and returns the (possibly
absent) handle together with the error context it leaves behind.  `tstat`
models TSTAT returning >= 0, and `strerror` the strerror(errno) text. -/
structure Backends where
  aff_open : List (Option String) → Nat → ErrCtx → Option TSK_IMG_INFO × ErrCtx
  ewf_open : Nat → List (Option String) → Nat → ErrCtx → Option TSK_IMG_INFO × ErrCtx
  raw_open : Option String → Nat → ErrCtx → Option TSK_IMG_INFO × ErrCtx
  split_open : Nat → List (Option String) → Nat → ErrCtx → Option TSK_IMG_INFO × ErrCtx
  tstat : Option String → Bool
  strerror : String

/-- Which external entry point was invoked (recorded in call order). -/
inductive BackendCall where
  | aff
  | ewf
  | raw
  | split
  | stat
deriving DecidableEq

/-- The observable outcome of one tsk_img_open call: the returned handle (or
none), the final error context, the backends invoked in order, and the handles
on which close was invoked, in order. -/
structure OpenResult where
  ret : Option TSK_IMG_INFO
  err : ErrCtx
  calls : List BackendCall
  closed : List TSK_IMG_INFO
deriving DecidableEq

/-- images[0] of the path array (a null pointer is `none`). -/
def img0 (images : List (Option String)) : Option String := images.getD 0 none

/-- The Windows device-object prefix check:
TSTRNCMP(_TSK_T("\\\\.\\"), images[0], 4) == 0. -/
def winObjPrefixMatch (p : Option String) : Bool :=
  match p with
  | some s => "\\\\.\\".isPrefixOf s
  | none => false

/-- Substring containment: `pat` occurs inside `s`. -/
def strContainsStr (s pat : String) : Prop := pat.data <:+: s.data

instance (s pat : String) : Decidable (strContainsStr s pat) :=
  List.decidableInfix pat.data s.data

/-- Lines 183-209: the stat-based diagnosis after the raw fallback produced
neither a handle nor an error. -/
def detectStatPhase (win : Bool) (B : Backends) (images : List (Option String))
    (calls : List BackendCall) (closed : List TSK_IMG_INFO) : OpenResult :=
  if B.tstat (img0 images) = false then
    if win && winObjPrefixMatch (img0 images) then
      -- windows object: the stat failure is ignored, fall through to UNKTYPE
      { ret := none, err := ⟨.img_unktype, "", ""⟩,
        calls := calls ++ [.stat], closed := closed }
    else
      { ret := none,
        err := ⟨.img_stat, (img0 images).getD "" ++ " : " ++ B.strerror, ""⟩,
        calls := calls ++ [.stat], closed := closed }
  else
    { ret := none, err := ⟨.img_unktype, "", ""⟩,
      calls := calls ++ [.stat], closed := closed }

/-- Lines 165-181: the raw/split fallback of autodetection.  `e` is the error
context in force when the fallback backend is called. -/
def detectRawPhase (win : Bool) (B : Backends) (num_img : Nat)
    (images : List (Option String)) (a_ssize : Nat) (e : ErrCtx)
    (calls : List BackendCall) (closed : List TSK_IMG_INFO) : OpenResult :=
  if num_img = 1 then
    match B.raw_open (img0 images) a_ssize e with
    | (some h, e1) =>
      { ret := some h, err := e1, calls := calls ++ [.raw], closed := closed }
    | (none, e1) =>
      if e1.errno ≠ .noerr then
        { ret := none, err := e1, calls := calls ++ [.raw], closed := closed }
      else
        detectStatPhase win B images (calls ++ [.raw]) closed
  else
    match B.split_open num_img images a_ssize e with
    | (some h, e1) =>
      { ret := some h, err := e1, calls := calls ++ [.split], closed := closed }
    | (none, e1) =>
      if e1.errno ≠ .noerr then
        { ret := none, err := e1, calls := calls ++ [.split], closed := closed }
      else
        detectStatPhase win B images (calls ++ [.split]) closed

/-- Lines 161-209: after both non-raw probes, return the single positive match
if there is one, otherwise fall back to raw/split. -/
def detectAfterProbes (win : Bool) (B : Backends) (num_img : Nat)
    (images : List (Option String)) (a_ssize : Nat)
    (img_set : Option TSK_IMG_INFO) (e : ErrCtx)
    (calls : List BackendCall) (closed : List TSK_IMG_INFO) : OpenResult :=
  match img_set with
  | some h => { ret := some h, err := e, calls := calls, closed := closed }
  | none => detectRawPhase win B num_img images a_ssize e calls closed

/-- Lines 142-160: the EWF probe.  `cand` carries the (set, img_set) pair of
the C code, which travel together: the format name and handle of the one
positive match seen so far. -/
def detectEwfPhase (win : Bool) (B : Backends) (num_img : Nat)
    (images : List (Option String)) (a_ssize : Nat)
    (cand : Option (String × TSK_IMG_INFO)) (e : ErrCtx)
    (calls : List BackendCall) (closed : List TSK_IMG_INFO) : OpenResult :=
  match B.ewf_open num_img images a_ssize e with
  | (some h2, e2) =>
    match cand with
    | none =>
      detectAfterProbes win B num_img images a_ssize (some h2) e2
        (calls ++ [.ewf]) closed
    | some c =>
      -- ambiguous match: close both candidates, reset, fail with UNKTYPE
      { ret := none,
        err := ⟨.img_unktype, "EWF or " ++ c.1, ""⟩,
        calls := calls ++ [.ewf],
        closed := closed ++ [c.2, h2] }
  | (none, _) =>
    -- line 158: tsk_error_reset()
    detectAfterProbes win B num_img images a_ssize (cand.map fun c => c.2)
      tsk_error_reset (calls ++ [.ewf]) closed

/-- Lines 114-209: the whole autodetection branch (type == TSK_IMG_TYPE_DETECT),
starting with the tsk_error_reset of line 122 and the AFF probe. -/
def detectPhase (win : Bool) (B : Backends) (num_img : Nat)
    (images : List (Option String)) (a_ssize : Nat) : OpenResult :=
  match B.aff_open images a_ssize tsk_error_reset with
  | (some h, e1) =>
    if h.itype = .AFF_ANY then
      -- the "ANY" variant is not allowed with autodetect: close it at once
      detectEwfPhase win B num_img images a_ssize none e1 [.aff] [h]
    else
      detectEwfPhase win B num_img images a_ssize (some ("AFF", h)) e1 [.aff] []
  | (none, _) =>
    -- line 138: tsk_error_reset()
    detectEwfPhase win B num_img images a_ssize none tsk_error_reset [.aff] []

/-- Wraps one explicit-type backend call (lines 217-260). -/
def mkExplicit (r : Option TSK_IMG_INFO × ErrCtx) (c : BackendCall) : OpenResult :=
  { ret := r.1, err := r.2, calls := [c], closed := [] }

/-- Lines 114-260: dispatch on the requested type, once the path-list and
sector-size validation has passed.  DETECT runs autodetection; the raw types
re-route on the path count (lines 217-236); the AFF and EWF tags map to their
backend; any other tag is UNSUPTYPE (lines 253-257). -/
def dispatchPhase (win : Bool) (B : Backends) (num_img : Nat)
    (images : List (Option String)) (type : TSK_IMG_TYPE_ENUM)
    (a_ssize : Nat) : OpenResult :=
  match type with
  | .DETECT => detectPhase win B num_img images a_ssize
  | .RAW_SING =>
    if 1 < num_img then
      mkExplicit (B.split_open num_img images a_ssize tsk_error_reset) .split
    else
      mkExplicit (B.raw_open (img0 images) a_ssize tsk_error_reset) .raw
  | .RAW_SPLIT =>
    if num_img = 1 then
      mkExplicit (B.raw_open (img0 images) a_ssize tsk_error_reset) .raw
    else
      mkExplicit (B.split_open num_img images a_ssize tsk_error_reset) .split
  | .AFF_AFF => mkExplicit (B.aff_open images a_ssize tsk_error_reset) .aff
  | .AFF_AFD => mkExplicit (B.aff_open images a_ssize tsk_error_reset) .aff
  | .AFF_AFM => mkExplicit (B.aff_open images a_ssize tsk_error_reset) .aff
  | .AFF_ANY => mkExplicit (B.aff_open images a_ssize tsk_error_reset) .aff
  | .EWF_EWF => mkExplicit (B.ewf_open num_img images a_ssize tsk_error_reset) .ewf
  | .UNSUPP =>
    { ret := none,
      err := ⟨.img_unsuptype, toString (imgTypeCode .UNSUPP), ""⟩,
      calls := [], closed := [] }

/-- tsk_img_open (lines 73-261). -/
def tsk_img_open (win : Bool) (B : Backends) (num_img : Nat)
    (images : List (Option String)) (type : TSK_IMG_TYPE_ENUM)
    (a_ssize : Nat) : OpenResult :=
  -- tsk_error_reset() at entry (line 81); the first backend call receives it
  if num_img = 0 ∨ img0 images = none then
    { ret := none, err := ⟨.img_nofile, "tsk_img_open", ""⟩,
      calls := [], closed := [] }
  else if 0 < a_ssize ∧ a_ssize < 512 then
    { ret := none,
      err := ⟨.img_arg,
        "sector size is less than 512 bytes (" ++ toString a_ssize ++ ")", ""⟩,
      calls := [], closed := [] }
  else if a_ssize % 512 ≠ 0 then
    { ret := none,
      err := ⟨.img_arg,
        "sector size is not a multiple of 512 (" ++ toString a_ssize ++ ")", ""⟩,
      calls := [], closed := [] }
  else
    dispatchPhase win B num_img images type a_ssize

/-- tsk_img_open_sing (lines 46-52). -/
def tsk_img_open_sing (win : Bool) (B : Backends) (a_image : Option String)
    (type : TSK_IMG_TYPE_ENUM) (a_ssize : Nat) : OpenResult :=
  tsk_img_open win B 1 [a_image] type a_ssize

/-- The per-path conversion loop of tsk_img_open_utf8 (lines 320-348):
converts the paths in order, stopping at the first failing conversion.
Returns the conversion outcome together with the list of paths on which the
converter was invoked, in order. -/
def convertAll (conv : String → Except Nat String) :
    List String → Except (String × Nat) (List (Option String)) × List String
  | [] => (.ok [], [])
  | p :: ps =>
    match conv p with
    | .error c => (.error (p, c), [p])
    | .ok q =>
      let r := convertAll conv ps
      (match r.1 with
       | .error pc => .error pc
       | .ok qs => .ok (some q :: qs), p :: r.2)

/-- Outcome of tsk_img_open_utf8: the open result plus the list of paths
handed to the UTF-8 to UTF-16 converter, in order. -/
structure Utf8Result where
  res : OpenResult
  convCalls : List String
deriving DecidableEq

/-- tsk_img_open_utf8 (lines 300-365).  `conv` is the external
tsk_UTF8toUTF16 collaborator (error value = the TSKConversionResult code);
`e0` is the error context in force when the function is entered (the function
itself performs no reset before the conversion loop). -/
def tsk_img_open_utf8 (win : Bool) (conv : String → Except Nat String)
    (B : Backends) (num_img : Nat) (images : List String)
    (type : TSK_IMG_TYPE_ENUM) (a_ssize : Nat) (e0 : ErrCtx) : Utf8Result :=
  if win then
    match convertAll conv (images.take num_img) with
    | (.error pc, cs) =>
      { res := { ret := none,
                 err := ⟨.img_convert,
                   "tsk_img_open_utf8: Error converting image " ++ pc.1
                     ++ " " ++ toString pc.2,
                   e0.errstr2⟩,
                 calls := [], closed := [] },
        convCalls := cs }
    | (.ok qs, cs) =>
      { res := tsk_img_open win B num_img qs type a_ssize, convCalls := cs }
  else
    { res := tsk_img_open win B num_img (images.map some) type a_ssize,
      convCalls := [] }

/-- tsk_img_close (lines 458-465): close on a null handle is a no-op,
otherwise the close of the owning backend is invoked once. -/
def tsk_img_close (a_img_info : Option TSK_IMG_INFO) : List TSK_IMG_INFO :=
  match a_img_info with
  | none => []
  | some h => [h]

/-- A backend set on which every probe declines (no handle, context left
unchanged) and stat succeeds; used to instantiate theorems with hypotheses. -/
def B0 : Backends :=
  { aff_open := fun _ _ e => (none, e)
  , ewf_open := fun _ _ _ e => (none, e)
  , raw_open := fun _ _ e => (none, e)
  , split_open := fun _ _ _ e => (none, e)
  , tstat := fun _ => true
  , strerror := "No such file or directory" }

theorem mem_calls_detectStatPhase (win : Bool) (B : Backends)
    (images : List (Option String)) (calls : List BackendCall)
    (closed : List TSK_IMG_INFO) (c : BackendCall) (h : c ∈ calls) :
    c ∈ (detectStatPhase win B images calls closed).calls := by
  unfold detectStatPhase
  split <;> [split <;> simp [h]; simp [h]]

theorem mem_calls_detectRawPhase (win : Bool) (B : Backends) (num_img : Nat)
    (images : List (Option String)) (a_ssize : Nat) (e : ErrCtx)
    (calls : List BackendCall) (closed : List TSK_IMG_INFO) (c : BackendCall)
    (h : c ∈ calls) :
    c ∈ (detectRawPhase win B num_img images a_ssize e calls closed).calls := by
  unfold detectRawPhase
  split
  · split
    · simp [h]
    · split
      · simp [h]
      · exact mem_calls_detectStatPhase _ _ _ _ _ _ (by simp [h])
  · split
    · simp [h]
    · split
      · simp [h]
      · exact mem_calls_detectStatPhase _ _ _ _ _ _ (by simp [h])

theorem mem_calls_detectAfterProbes (win : Bool) (B : Backends) (num_img : Nat)
    (images : List (Option String)) (a_ssize : Nat)
    (img_set : Option TSK_IMG_INFO) (e : ErrCtx)
    (calls : List BackendCall) (closed : List TSK_IMG_INFO) (c : BackendCall)
    (h : c ∈ calls) :
    c ∈ (detectAfterProbes win B num_img images a_ssize img_set e calls closed).calls := by
  unfold detectAfterProbes
  cases img_set with
  | some hh => simpa using h
  | none => exact mem_calls_detectRawPhase _ _ _ _ _ _ _ _ _ h

theorem mem_calls_detectEwfPhase (win : Bool) (B : Backends) (num_img : Nat)
    (images : List (Option String)) (a_ssize : Nat)
    (cand : Option (String × TSK_IMG_INFO)) (e : ErrCtx)
    (calls : List BackendCall) (closed : List TSK_IMG_INFO) (c : BackendCall)
    (h : c ∈ calls) :
    c ∈ (detectEwfPhase win B num_img images a_ssize cand e calls closed).calls := by
  unfold detectEwfPhase
  split
  · cases cand with
    | none => exact mem_calls_detectAfterProbes _ _ _ _ _ _ _ _ _ _ (by simp [h])
    | some cc => simp [h]
  · exact mem_calls_detectAfterProbes _ _ _ _ _ _ _ _ _ _ (by simp [h])

theorem aff_mem_calls_detectPhase (win : Bool) (B : Backends) (num_img : Nat)
    (images : List (Option String)) (a_ssize : Nat) :
    BackendCall.aff ∈ (detectPhase win B num_img images a_ssize).calls := by
  unfold detectPhase
  split
  · split <;> exact mem_calls_detectEwfPhase _ _ _ _ _ _ _ _ _ _ (by simp)
  · exact mem_calls_detectEwfPhase _ _ _ _ _ _ _ _ _ _ (by simp)

theorem valid_ssize_not_small (a_ssize : Nat) (hs : a_ssize % 512 = 0) :
    ¬(0 < a_ssize ∧ a_ssize < 512) := by
  rintro ⟨h1, h2⟩
  have hd : 512 ∣ a_ssize := Nat.dvd_of_mod_eq_zero hs
  have := Nat.le_of_dvd h1 hd
  omega

theorem tsk_img_open_valid_eq (win : Bool) (B : Backends) (num_img : Nat)
    (images : List (Option String)) (type : TSK_IMG_TYPE_ENUM) (a_ssize : Nat)
    (hn : num_img ≠ 0) (h0 : img0 images ≠ none) (hs : a_ssize % 512 = 0) :
    tsk_img_open win B num_img images type a_ssize =
      dispatchPhase win B num_img images type a_ssize := by
  unfold tsk_img_open
  rw [if_neg (by simp [hn, h0]), if_neg (valid_ssize_not_small a_ssize hs),
    if_neg (by simp [hs])]

theorem dispatchPhase_calls_ne_nil (win : Bool) (B : Backends) (num_img : Nat)
    (images : List (Option String)) (type : TSK_IMG_TYPE_ENUM) (a_ssize : Nat)
    (ht : type ≠ .UNSUPP) :
    (dispatchPhase win B num_img images type a_ssize).calls ≠ [] := by
  cases type <;> simp only [dispatchPhase, mkExplicit]
  case DETECT =>
    intro hc
    have hmem := aff_mem_calls_detectPhase win B num_img images a_ssize
    rw [hc] at hmem
    simp at hmem
  case RAW_SING => split <;> simp
  case RAW_SPLIT => split <;> simp
  case AFF_AFF => simp
  case AFF_AFD => simp
  case AFF_AFM => simp
  case AFF_ANY => simp
  case EWF_EWF => simp
  case UNSUPP => exact absurd rfl ht

theorem strContainsStr_self (p : String) : strContainsStr p p :=
  ⟨[], [], by simp⟩

theorem strContainsStr_absorb_left (a b p : String) (h : strContainsStr b p) :
    strContainsStr (a ++ b) p := by
  rcases h with ⟨s, t, hst⟩
  exact ⟨a.data ++ s, t, by rw [String.data_append, ← hst]; simp⟩

theorem strContainsStr_absorb_right (a b p : String) (h : strContainsStr a p) :
    strContainsStr (a ++ b) p := by
  rcases h with ⟨s, t, hst⟩
  exact ⟨s, t ++ b.data, by rw [String.data_append, ← hst]; simp⟩

/-- Claim C8: an empty path list (zero paths or a null first entry) is
rejected with NOFILE, no backend is invoked, and this check precedes the
sector-size validation (the conclusion holds for every a_ssize, including
invalid ones, so the error is NOFILE and never ARG). -/
theorem C8_empty_path_list_nofile (win : Bool) (B : Backends) (num_img : Nat)
    (images : List (Option String)) (type : TSK_IMG_TYPE_ENUM) (a_ssize : Nat)
    (h : num_img = 0 ∨ img0 images = none) :
    (tsk_img_open win B num_img images type a_ssize).ret = none ∧
    (tsk_img_open win B num_img images type a_ssize).err =
      ⟨.img_nofile, "tsk_img_open", ""⟩ ∧
    (tsk_img_open win B num_img images type a_ssize).calls = [] := by
  unfold tsk_img_open
  rw [if_pos h]
  exact ⟨rfl, rfl, rfl⟩

theorem C8_empty_path_list_nofile_witness :
    ((0 : Nat) = 0 ∨ img0 ([] : List (Option String)) = none) ∧
    ((tsk_img_open false B0 0 [] .DETECT 700).ret = none ∧
     (tsk_img_open false B0 0 [] .DETECT 700).err =
       ⟨.img_nofile, "tsk_img_open", ""⟩ ∧
     (tsk_img_open false B0 0 [] .DETECT 700).calls = []) :=
  ⟨Or.inl rfl,
   C8_empty_path_list_nofile false B0 0 [] .DETECT 700 (Or.inl rfl)⟩

/-- Claim C3: with a non-empty path list, the call is rejected with code ARG
before any backend is touched if and only if the sector size is nonzero and
either below 512 or not a multiple of 512; a value in 1..511 yields the
"less than 512" message naming the value and the floor, a positive
non-multiple of 512 (necessarily at least 512, the smaller ones being caught
by the floor check first) yields the "not a multiple" message naming the
value and the modulus, and sector size 0 is never rejected with ARG. -/
theorem C3_sector_size_validation (win : Bool) (B : Backends) (num_img : Nat)
    (images : List (Option String)) (type : TSK_IMG_TYPE_ENUM) (a_ssize : Nat)
    (hn : num_img ≠ 0) (h0 : img0 images ≠ none) :
    (((tsk_img_open win B num_img images type a_ssize).ret = none ∧
      (tsk_img_open win B num_img images type a_ssize).err.errno = .img_arg ∧
      (tsk_img_open win B num_img images type a_ssize).calls = []) ↔
      (0 < a_ssize ∧ (a_ssize < 512 ∨ a_ssize % 512 ≠ 0))) ∧
    (0 < a_ssize → a_ssize < 512 →
      (tsk_img_open win B num_img images type a_ssize).err.errstr =
        "sector size is less than 512 bytes (" ++ toString a_ssize ++ ")" ∧
      strContainsStr (tsk_img_open win B num_img images type a_ssize).err.errstr
        (toString a_ssize) ∧
      strContainsStr (tsk_img_open win B num_img images type a_ssize).err.errstr
        "512") ∧
    (512 ≤ a_ssize → a_ssize % 512 ≠ 0 →
      (tsk_img_open win B num_img images type a_ssize).err.errstr =
        "sector size is not a multiple of 512 (" ++ toString a_ssize ++ ")" ∧
      strContainsStr (tsk_img_open win B num_img images type a_ssize).err.errstr
        (toString a_ssize) ∧
      strContainsStr (tsk_img_open win B num_img images type a_ssize).err.errstr
        "512") ∧
    (a_ssize = 0 →
      ¬((tsk_img_open win B num_img images type a_ssize).ret = none ∧
        (tsk_img_open win B num_img images type a_ssize).err.errno = .img_arg ∧
        (tsk_img_open win B num_img images type a_ssize).calls = [])) := by
  by_cases hlt : 0 < a_ssize ∧ a_ssize < 512
  · have hopen : tsk_img_open win B num_img images type a_ssize =
        { ret := none,
          err := ⟨.img_arg,
            "sector size is less than 512 bytes (" ++ toString a_ssize ++ ")",
            ""⟩,
          calls := [], closed := [] } := by
      unfold tsk_img_open
      rw [if_neg (by simp [hn, h0]), if_pos hlt]
    refine ⟨?_, ?_, ?_, ?_⟩
    · rw [hopen]
      exact ⟨fun _ => ⟨hlt.1, Or.inl hlt.2⟩, fun _ => ⟨rfl, rfl, rfl⟩⟩
    · intro _ _
      rw [hopen]
      exact ⟨rfl,
        strContainsStr_absorb_right _ _ _
          (strContainsStr_absorb_left _ _ _ (strContainsStr_self _)),
        strContainsStr_absorb_right _ _ _
          (strContainsStr_absorb_right _ _ _ (by decide))⟩
    · intro hge _
      exact absurd hlt.2 (by omega)
    · intro h00
      exact absurd hlt.1 (by omega)
  · by_cases hmod : a_ssize % 512 = 0
    · have hmain :
          ¬((tsk_img_open win B num_img images type a_ssize).ret = none ∧
            (tsk_img_open win B num_img images type a_ssize).err.errno =
              .img_arg ∧
            (tsk_img_open win B num_img images type a_ssize).calls = []) := by
        rw [tsk_img_open_valid_eq win B num_img images type a_ssize hn h0 hmod]
        by_cases ht : type = .UNSUPP
        · subst ht
          rintro ⟨-, he, -⟩
          simp [dispatchPhase] at he
        · rintro ⟨-, -, hc⟩
          exact dispatchPhase_calls_ne_nil win B num_img images type a_ssize ht hc
      refine ⟨?_, ?_, ?_, ?_⟩
      · refine ⟨fun hx => absurd hx hmain, fun hx => ?_⟩
        rcases hx with ⟨h1, h2 | h3⟩
        · exact absurd ⟨h1, h2⟩ hlt
        · exact absurd hmod h3
      · intro hp hl
        exact absurd ⟨hp, hl⟩ hlt
      · intro _ hm
        exact absurd hmod hm
      · intro _
        exact hmain
    · have hopen : tsk_img_open win B num_img images type a_ssize =
          { ret := none,
            err := ⟨.img_arg,
              "sector size is not a multiple of 512 (" ++ toString a_ssize
                ++ ")", ""⟩,
            calls := [], closed := [] } := by
        unfold tsk_img_open
        rw [if_neg (by simp [hn, h0]), if_neg hlt, if_pos hmod]
      have hpos : 0 < a_ssize := by
        rcases Nat.eq_zero_or_pos a_ssize with h | h
        · subst h
          simp at hmod
        · exact h
      refine ⟨?_, ?_, ?_, ?_⟩
      · rw [hopen]
        exact ⟨fun _ => ⟨hpos, Or.inr hmod⟩, fun _ => ⟨rfl, rfl, rfl⟩⟩
      · intro hp hl
        exact absurd ⟨hp, hl⟩ hlt
      · intro _ _
        rw [hopen]
        exact ⟨rfl,
          strContainsStr_absorb_right _ _ _
            (strContainsStr_absorb_left _ _ _ (strContainsStr_self _)),
          strContainsStr_absorb_right _ _ _
            (strContainsStr_absorb_right _ _ _ (by decide))⟩
      · intro h00
        subst h00
        simp at hmod

theorem C3_sector_size_validation_witness :
    ((1 : Nat) ≠ 0) ∧ (img0 [some "disk.dd"] ≠ none) ∧
    ((((tsk_img_open false B0 1 [some "disk.dd"] .DETECT 700).ret = none ∧
      (tsk_img_open false B0 1 [some "disk.dd"] .DETECT 700).err.errno =
        .img_arg ∧
      (tsk_img_open false B0 1 [some "disk.dd"] .DETECT 700).calls = []) ↔
      (0 < 700 ∧ (700 < 512 ∨ 700 % 512 ≠ 0))) ∧
    (0 < 700 → 700 < 512 →
      (tsk_img_open false B0 1 [some "disk.dd"] .DETECT 700).err.errstr =
        "sector size is less than 512 bytes (" ++ toString 700 ++ ")" ∧
      strContainsStr
        (tsk_img_open false B0 1 [some "disk.dd"] .DETECT 700).err.errstr
        (toString 700) ∧
      strContainsStr
        (tsk_img_open false B0 1 [some "disk.dd"] .DETECT 700).err.errstr
        "512") ∧
    (512 ≤ 700 → 700 % 512 ≠ 0 →
      (tsk_img_open false B0 1 [some "disk.dd"] .DETECT 700).err.errstr =
        "sector size is not a multiple of 512 (" ++ toString 700 ++ ")" ∧
      strContainsStr
        (tsk_img_open false B0 1 [some "disk.dd"] .DETECT 700).err.errstr
        (toString 700) ∧
      strContainsStr
        (tsk_img_open false B0 1 [some "disk.dd"] .DETECT 700).err.errstr
        "512") ∧
    (700 = 0 →
      ¬((tsk_img_open false B0 1 [some "disk.dd"] .DETECT 700).ret = none ∧
        (tsk_img_open false B0 1 [some "disk.dd"] .DETECT 700).err.errno =
          .img_arg ∧
        (tsk_img_open false B0 1 [some "disk.dd"] .DETECT 700).calls = []))) :=
  ⟨by decide, by decide,
   C3_sector_size_validation false B0 1 [some "disk.dd"] .DETECT 700
    (by decide) (by decide)⟩

/-- Claim C10: a call whose first path entry is a non-null empty string is not
rejected by the empty-path-list validation (which checks only a zero count or
a null first pointer): the NOFILE code can only come out of an invocation-free
rejection, which never happens here, and with a valid sector size and a
supported type the call reaches the backends or the stat diagnosis. -/
theorem C10_empty_string_passes (win : Bool) (B : Backends) (num_img : Nat)
    (images : List (Option String)) (type : TSK_IMG_TYPE_ENUM) (a_ssize : Nat)
    (hn : num_img ≠ 0) (h0 : img0 images = some "") :
    ((tsk_img_open win B num_img images type a_ssize).calls = [] →
      (tsk_img_open win B num_img images type a_ssize).err.errno ≠
        .img_nofile) ∧
    (a_ssize % 512 = 0 → type ≠ .UNSUPP →
      (tsk_img_open win B num_img images type a_ssize).calls ≠ []) := by
  have h0' : img0 images ≠ none := by rw [h0]; simp
  constructor
  · intro hc
    by_cases hlt : 0 < a_ssize ∧ a_ssize < 512
    · have hopen : tsk_img_open win B num_img images type a_ssize =
          { ret := none,
            err := ⟨.img_arg,
              "sector size is less than 512 bytes (" ++ toString a_ssize
                ++ ")", ""⟩,
            calls := [], closed := [] } := by
        unfold tsk_img_open
        rw [if_neg (by simp [hn, h0']), if_pos hlt]
      rw [hopen]
      simp
    · by_cases hmod : a_ssize % 512 = 0
      · rw [tsk_img_open_valid_eq win B num_img images type a_ssize hn h0' hmod]
          at hc ⊢
        by_cases ht : type = .UNSUPP
        · subst ht
          simp [dispatchPhase]
        · exact absurd hc
            (dispatchPhase_calls_ne_nil win B num_img images type a_ssize ht)
      · have hopen : tsk_img_open win B num_img images type a_ssize =
            { ret := none,
              err := ⟨.img_arg,
                "sector size is not a multiple of 512 (" ++ toString a_ssize
                  ++ ")", ""⟩,
              calls := [], closed := [] } := by
          unfold tsk_img_open
          rw [if_neg (by simp [hn, h0']), if_neg hlt, if_pos hmod]
        rw [hopen]
        simp
  · intro hmod ht
    rw [tsk_img_open_valid_eq win B num_img images type a_ssize hn h0' hmod]
    exact dispatchPhase_calls_ne_nil win B num_img images type a_ssize ht

theorem C10_empty_string_passes_witness :
    ((1 : Nat) ≠ 0) ∧ (img0 [some ""] = some "") ∧
    (((tsk_img_open false B0 1 [some ""] .DETECT 0).calls = [] →
      (tsk_img_open false B0 1 [some ""] .DETECT 0).err.errno ≠
        .img_nofile) ∧
    ((0 : Nat) % 512 = 0 → TSK_IMG_TYPE_ENUM.DETECT ≠ .UNSUPP →
      (tsk_img_open false B0 1 [some ""] .DETECT 0).calls ≠ [])) :=
  ⟨by decide, by decide,
   C10_empty_string_passes false B0 1 [some ""] .DETECT 0
    (by decide) (by decide)⟩

theorem detectPhase_eq_aff_match (win : Bool) (B : Backends) (num_img : Nat)
    (images : List (Option String)) (a_ssize : Nat) (h : TSK_IMG_INFO)
    (e1 : ErrCtx)
    (haff : B.aff_open images a_ssize tsk_error_reset = (some h, e1))
    (hne : h.itype ≠ .AFF_ANY) :
    detectPhase win B num_img images a_ssize =
      detectEwfPhase win B num_img images a_ssize (some ("AFF", h)) e1
        [.aff] [] := by
  unfold detectPhase
  rw [haff]
  exact if_neg hne

theorem detectPhase_eq_aff_any (win : Bool) (B : Backends) (num_img : Nat)
    (images : List (Option String)) (a_ssize : Nat) (h : TSK_IMG_INFO)
    (e1 : ErrCtx)
    (haff : B.aff_open images a_ssize tsk_error_reset = (some h, e1))
    (hany : h.itype = .AFF_ANY) :
    detectPhase win B num_img images a_ssize =
      detectEwfPhase win B num_img images a_ssize none e1 [.aff] [h] := by
  unfold detectPhase
  rw [haff]
  exact if_pos hany

theorem detectPhase_eq_aff_decline (win : Bool) (B : Backends) (num_img : Nat)
    (images : List (Option String)) (a_ssize : Nat) (e1 : ErrCtx)
    (haff : B.aff_open images a_ssize tsk_error_reset = (none, e1)) :
    detectPhase win B num_img images a_ssize =
      detectEwfPhase win B num_img images a_ssize none tsk_error_reset
        [.aff] [] := by
  unfold detectPhase
  rw [haff]

theorem detectEwfPhase_eq_first_match (win : Bool) (B : Backends)
    (num_img : Nat) (images : List (Option String)) (a_ssize : Nat)
    (e : ErrCtx) (calls : List BackendCall) (closed : List TSK_IMG_INFO)
    (h2 : TSK_IMG_INFO) (e2 : ErrCtx)
    (hewf : B.ewf_open num_img images a_ssize e = (some h2, e2)) :
    detectEwfPhase win B num_img images a_ssize none e calls closed =
      detectAfterProbes win B num_img images a_ssize (some h2) e2
        (calls ++ [.ewf]) closed := by
  unfold detectEwfPhase
  rw [hewf]

theorem detectEwfPhase_eq_ambiguous (win : Bool) (B : Backends)
    (num_img : Nat) (images : List (Option String)) (a_ssize : Nat)
    (c : String × TSK_IMG_INFO) (e : ErrCtx) (calls : List BackendCall)
    (closed : List TSK_IMG_INFO) (h2 : TSK_IMG_INFO) (e2 : ErrCtx)
    (hewf : B.ewf_open num_img images a_ssize e = (some h2, e2)) :
    detectEwfPhase win B num_img images a_ssize (some c) e calls closed =
      { ret := none,
        err := ⟨.img_unktype, "EWF or " ++ c.1, ""⟩,
        calls := calls ++ [.ewf],
        closed := closed ++ [c.2, h2] } := by
  unfold detectEwfPhase
  rw [hewf]

theorem detectEwfPhase_eq_decline (win : Bool) (B : Backends)
    (num_img : Nat) (images : List (Option String)) (a_ssize : Nat)
    (cand : Option (String × TSK_IMG_INFO)) (e : ErrCtx)
    (calls : List BackendCall) (closed : List TSK_IMG_INFO) (e2 : ErrCtx)
    (hewf : B.ewf_open num_img images a_ssize e = (none, e2)) :
    detectEwfPhase win B num_img images a_ssize cand e calls closed =
      detectAfterProbes win B num_img images a_ssize
        (cand.map fun c => c.2) tsk_error_reset (calls ++ [.ewf]) closed := by
  unfold detectEwfPhase
  rw [hewf]

theorem detectAfterProbes_some (win : Bool) (B : Backends) (num_img : Nat)
    (images : List (Option String)) (a_ssize : Nat) (h : TSK_IMG_INFO)
    (e : ErrCtx) (calls : List BackendCall) (closed : List TSK_IMG_INFO) :
    detectAfterProbes win B num_img images a_ssize (some h) e calls closed =
      { ret := some h, err := e, calls := calls, closed := closed } := rfl

theorem detectAfterProbes_none (win : Bool) (B : Backends) (num_img : Nat)
    (images : List (Option String)) (a_ssize : Nat) (e : ErrCtx)
    (calls : List BackendCall) (closed : List TSK_IMG_INFO) :
    detectAfterProbes win B num_img images a_ssize none e calls closed =
      detectRawPhase win B num_img images a_ssize e calls closed := rfl

theorem detectRawPhase_eq_raw_some (win : Bool) (B : Backends) (num_img : Nat)
    (images : List (Option String)) (a_ssize : Nat) (e : ErrCtx)
    (calls : List BackendCall) (closed : List TSK_IMG_INFO)
    (h : TSK_IMG_INFO) (e1 : ErrCtx) (hn1 : num_img = 1)
    (hraw : B.raw_open (img0 images) a_ssize e = (some h, e1)) :
    detectRawPhase win B num_img images a_ssize e calls closed =
      { ret := some h, err := e1, calls := calls ++ [.raw],
        closed := closed } := by
  unfold detectRawPhase
  rw [if_pos hn1, hraw]

theorem detectRawPhase_eq_raw_err (win : Bool) (B : Backends) (num_img : Nat)
    (images : List (Option String)) (a_ssize : Nat) (e : ErrCtx)
    (calls : List BackendCall) (closed : List TSK_IMG_INFO) (e1 : ErrCtx)
    (hn1 : num_img = 1)
    (hraw : B.raw_open (img0 images) a_ssize e = (none, e1))
    (he : e1.errno ≠ .noerr) :
    detectRawPhase win B num_img images a_ssize e calls closed =
      { ret := none, err := e1, calls := calls ++ [.raw],
        closed := closed } := by
  unfold detectRawPhase
  rw [if_pos hn1, hraw]
  exact if_pos he

theorem detectRawPhase_eq_raw_noerr (win : Bool) (B : Backends)
    (num_img : Nat) (images : List (Option String)) (a_ssize : Nat)
    (e : ErrCtx) (calls : List BackendCall) (closed : List TSK_IMG_INFO)
    (e1 : ErrCtx) (hn1 : num_img = 1)
    (hraw : B.raw_open (img0 images) a_ssize e = (none, e1))
    (he : e1.errno = .noerr) :
    detectRawPhase win B num_img images a_ssize e calls closed =
      detectStatPhase win B images (calls ++ [.raw]) closed := by
  unfold detectRawPhase
  rw [if_pos hn1, hraw]
  exact if_neg (by simp [he])

theorem detectRawPhase_eq_split_some (win : Bool) (B : Backends)
    (num_img : Nat) (images : List (Option String)) (a_ssize : Nat)
    (e : ErrCtx) (calls : List BackendCall) (closed : List TSK_IMG_INFO)
    (h : TSK_IMG_INFO) (e1 : ErrCtx) (hn1 : num_img ≠ 1)
    (hsp : B.split_open num_img images a_ssize e = (some h, e1)) :
    detectRawPhase win B num_img images a_ssize e calls closed =
      { ret := some h, err := e1, calls := calls ++ [.split],
        closed := closed } := by
  unfold detectRawPhase
  rw [if_neg hn1, hsp]

theorem detectRawPhase_eq_split_err (win : Bool) (B : Backends)
    (num_img : Nat) (images : List (Option String)) (a_ssize : Nat)
    (e : ErrCtx) (calls : List BackendCall) (closed : List TSK_IMG_INFO)
    (e1 : ErrCtx) (hn1 : num_img ≠ 1)
    (hsp : B.split_open num_img images a_ssize e = (none, e1))
    (he : e1.errno ≠ .noerr) :
    detectRawPhase win B num_img images a_ssize e calls closed =
      { ret := none, err := e1, calls := calls ++ [.split],
        closed := closed } := by
  unfold detectRawPhase
  rw [if_neg hn1, hsp]
  exact if_pos he

theorem detectRawPhase_eq_split_noerr (win : Bool) (B : Backends)
    (num_img : Nat) (images : List (Option String)) (a_ssize : Nat)
    (e : ErrCtx) (calls : List BackendCall) (closed : List TSK_IMG_INFO)
    (e1 : ErrCtx) (hn1 : num_img ≠ 1)
    (hsp : B.split_open num_img images a_ssize e = (none, e1))
    (he : e1.errno = .noerr) :
    detectRawPhase win B num_img images a_ssize e calls closed =
      detectStatPhase win B images (calls ++ [.split]) closed := by
  unfold detectRawPhase
  rw [if_neg hn1, hsp]
  exact if_neg (by simp [he])

theorem detectStatPhase_eq_statfail (win : Bool) (B : Backends)
    (images : List (Option String)) (calls : List BackendCall)
    (closed : List TSK_IMG_INFO)
    (hstat : B.tstat (img0 images) = false)
    (hw : (win && winObjPrefixMatch (img0 images)) = false) :
    detectStatPhase win B images calls closed =
      { ret := none,
        err := ⟨.img_stat, (img0 images).getD "" ++ " : " ++ B.strerror, ""⟩,
        calls := calls ++ [.stat], closed := closed } := by
  unfold detectStatPhase
  rw [if_pos hstat, if_neg (by simp [hw])]

theorem detectStatPhase_eq_statfail_winobj (win : Bool) (B : Backends)
    (images : List (Option String)) (calls : List BackendCall)
    (closed : List TSK_IMG_INFO)
    (hstat : B.tstat (img0 images) = false)
    (hw : (win && winObjPrefixMatch (img0 images)) = true) :
    detectStatPhase win B images calls closed =
      { ret := none, err := ⟨.img_unktype, "", ""⟩,
        calls := calls ++ [.stat], closed := closed } := by
  unfold detectStatPhase
  rw [if_pos hstat, if_pos (by simp [hw])]

theorem detectStatPhase_eq_statok (win : Bool) (B : Backends)
    (images : List (Option String)) (calls : List BackendCall)
    (closed : List TSK_IMG_INFO)
    (hstat : B.tstat (img0 images) = true) :
    detectStatPhase win B images calls closed =
      { ret := none, err := ⟨.img_unktype, "", ""⟩,
        calls := calls ++ [.stat], closed := closed } := by
  unfold detectStatPhase
  rw [if_neg (by simp [hstat])]

theorem detectStatPhase_ret (win : Bool) (B : Backends)
    (images : List (Option String)) (calls : List BackendCall)
    (closed : List TSK_IMG_INFO) :
    (detectStatPhase win B images calls closed).ret = none := by
  unfold detectStatPhase
  split
  · split <;> rfl
  · rfl

theorem detectStatPhase_closed (win : Bool) (B : Backends)
    (images : List (Option String)) (calls : List BackendCall)
    (closed : List TSK_IMG_INFO) :
    (detectStatPhase win B images calls closed).closed = closed := by
  unfold detectStatPhase
  split
  · split <;> rfl
  · rfl

theorem detectRawPhase_closed (win : Bool) (B : Backends) (num_img : Nat)
    (images : List (Option String)) (a_ssize : Nat) (e : ErrCtx)
    (calls : List BackendCall) (closed : List TSK_IMG_INFO) :
    (detectRawPhase win B num_img images a_ssize e calls closed).closed =
      closed := by
  unfold detectRawPhase
  split
  · split
    · rfl
    · split
      · rfl
      · exact detectStatPhase_closed _ _ _ _ _
  · split
    · rfl
    · split
      · rfl
      · exact detectStatPhase_closed _ _ _ _ _

theorem detectRawPhase_ret_some (win : Bool) (B : Backends) (num_img : Nat)
    (images : List (Option String)) (a_ssize : Nat) (e : ErrCtx)
    (calls : List BackendCall) (closed : List TSK_IMG_INFO) (x : TSK_IMG_INFO)
    (hx : (detectRawPhase win B num_img images a_ssize e calls closed).ret =
      some x) :
    (B.raw_open (img0 images) a_ssize e).1 = some x ∨
    (B.split_open num_img images a_ssize e).1 = some x := by
  unfold detectRawPhase at hx
  by_cases hn1 : num_img = 1
  · rw [if_pos hn1] at hx
    split at hx
    · rename_i h e1 heq
      left
      rw [heq]
      simpa using hx
    · rename_i e1 heq
      exfalso
      split at hx
      · simp at hx
      · rw [detectStatPhase_ret] at hx
        simp at hx
  · rw [if_neg hn1] at hx
    split at hx
    · rename_i h e1 heq
      right
      rw [heq]
      simpa using hx
    · rename_i e1 heq
      exfalso
      split at hx
      · simp at hx
      · rw [detectStatPhase_ret] at hx
        simp at hx

theorem detectRawPhase_has_rawsplit (win : Bool) (B : Backends) (num_img : Nat)
    (images : List (Option String)) (a_ssize : Nat) (e : ErrCtx)
    (calls : List BackendCall) (closed : List TSK_IMG_INFO) :
    BackendCall.raw ∈
      (detectRawPhase win B num_img images a_ssize e calls closed).calls ∨
    BackendCall.split ∈
      (detectRawPhase win B num_img images a_ssize e calls closed).calls := by
  unfold detectRawPhase
  by_cases hn1 : num_img = 1
  · left
    rw [if_pos hn1]
    split
    · simp
    · split
      · simp
      · exact mem_calls_detectStatPhase _ _ _ _ _ _ (by simp)
  · right
    rw [if_neg hn1]
    split
    · simp
    · split
      · simp
      · exact mem_calls_detectStatPhase _ _ _ _ _ _ (by simp)

/-- Claim C5: during autodetection, if exactly one non-raw backend positively
matched (with the AFF "ANY" variant not counting as a positive match),
open(DETECT) returns that backend's handle and neither the raw nor the split
backend is ever attempted.  The three disjuncts of `hmatch` are the three ways
exactly one match arises: AFF matched (non-ANY) and EWF declined; AFF declined
and EWF matched; AFF returned the rejected ANY variant and EWF matched. -/
theorem C5_unique_match_wins (win : Bool) (B : Backends) (num_img : Nat)
    (images : List (Option String)) (a_ssize : Nat) (h : TSK_IMG_INFO)
    (hn : num_img ≠ 0) (h0 : img0 images ≠ none) (hs : a_ssize % 512 = 0)
    (hmatch :
      (∃ e1, B.aff_open images a_ssize tsk_error_reset = (some h, e1) ∧
        h.itype ≠ .AFF_ANY ∧
        (B.ewf_open num_img images a_ssize e1).1 = none) ∨
      (∃ e1 e2, B.aff_open images a_ssize tsk_error_reset = (none, e1) ∧
        B.ewf_open num_img images a_ssize tsk_error_reset = (some h, e2)) ∨
      (∃ hA e1 e2, B.aff_open images a_ssize tsk_error_reset = (some hA, e1) ∧
        hA.itype = .AFF_ANY ∧
        B.ewf_open num_img images a_ssize e1 = (some h, e2))) :
    (tsk_img_open win B num_img images .DETECT a_ssize).ret = some h ∧
    BackendCall.raw ∉
      (tsk_img_open win B num_img images .DETECT a_ssize).calls ∧
    BackendCall.split ∉
      (tsk_img_open win B num_img images .DETECT a_ssize).calls := by
  rw [tsk_img_open_valid_eq win B num_img images .DETECT a_ssize hn h0 hs]
  have hd : dispatchPhase win B num_img images .DETECT a_ssize =
      detectPhase win B num_img images a_ssize := rfl
  rw [hd]
  rcases hmatch with ⟨e1, haff, hne, hewf⟩ | ⟨e1, e2, haff, hewf⟩ |
    ⟨hA, e1, e2, haff, hany, hewf⟩
  · have hewf2 : B.ewf_open num_img images a_ssize e1 =
        (none, (B.ewf_open num_img images a_ssize e1).2) := by
      rw [← hewf]
    rw [detectPhase_eq_aff_match win B num_img images a_ssize h e1 haff hne,
      detectEwfPhase_eq_decline win B num_img images a_ssize _ e1 _ _ _ hewf2]
    simp [detectAfterProbes]
  · rw [detectPhase_eq_aff_decline win B num_img images a_ssize e1 haff,
      detectEwfPhase_eq_first_match win B num_img images a_ssize
        tsk_error_reset _ _ h e2 hewf]
    simp [detectAfterProbes]
  · rw [detectPhase_eq_aff_any win B num_img images a_ssize hA e1 haff hany,
      detectEwfPhase_eq_first_match win B num_img images a_ssize e1 _ _ h e2
        hewf]
    simp [detectAfterProbes]

/-- A backend set where only AFF positively matches (a non-ANY variant). -/
def B_affonly : Backends :=
  { B0 with aff_open := fun _ _ e => (some ⟨2, .AFF_AFF⟩, e) }

theorem C5_unique_match_wins_witness :
    B_affonly.aff_open [some "a.aff"] 0 tsk_error_reset =
      (some ⟨2, .AFF_AFF⟩, tsk_error_reset) ∧
    (B_affonly.ewf_open 1 [some "a.aff"] 0 tsk_error_reset).1 = none ∧
    ((tsk_img_open false B_affonly 1 [some "a.aff"] .DETECT 0).ret =
      some ⟨2, .AFF_AFF⟩ ∧
     BackendCall.raw ∉
       (tsk_img_open false B_affonly 1 [some "a.aff"] .DETECT 0).calls ∧
     BackendCall.split ∉
       (tsk_img_open false B_affonly 1 [some "a.aff"] .DETECT 0).calls) :=
  ⟨rfl, rfl,
   C5_unique_match_wins false B_affonly 1 [some "a.aff"] 0 ⟨2, .AFF_AFF⟩
    (by decide) (by decide) (by decide)
    (Or.inl ⟨tsk_error_reset, rfl, by decide, rfl⟩)⟩

/-- Claim C6: during autodetection, an AFF handle of the unspecified ANY
variant is closed immediately, does not count as a positive match (a
subsequent EWF match is returned, with no ambiguity error and no further
close), and is never the returned handle; when EWF declines, detection
proceeds to the raw/split fallback as if AFF had declined.  The freshness
hypotheses say that no other backend ever hands out that same handle. -/
theorem C6_aff_any_closed_not_counted (win : Bool) (B : Backends)
    (num_img : Nat) (images : List (Option String)) (a_ssize : Nat)
    (h : TSK_IMG_INFO) (e1 : ErrCtx)
    (hn : num_img ≠ 0) (h0 : img0 images ≠ none) (hs : a_ssize % 512 = 0)
    (haff : B.aff_open images a_ssize tsk_error_reset = (some h, e1))
    (hany : h.itype = .AFF_ANY)
    (hfresh_ewf : ∀ n im ss e, (B.ewf_open n im ss e).1 ≠ some h)
    (hfresh_raw : ∀ p ss e, (B.raw_open p ss e).1 ≠ some h)
    (hfresh_split : ∀ n im ss e, (B.split_open n im ss e).1 ≠ some h) :
    h ∈ (tsk_img_open win B num_img images .DETECT a_ssize).closed ∧
    (tsk_img_open win B num_img images .DETECT a_ssize).ret ≠ some h ∧
    (∀ h2 e2, B.ewf_open num_img images a_ssize e1 = (some h2, e2) →
      (tsk_img_open win B num_img images .DETECT a_ssize).ret = some h2 ∧
      (tsk_img_open win B num_img images .DETECT a_ssize).closed = [h]) ∧
    (∀ e2, B.ewf_open num_img images a_ssize e1 = (none, e2) →
      BackendCall.raw ∈
        (tsk_img_open win B num_img images .DETECT a_ssize).calls ∨
      BackendCall.split ∈
        (tsk_img_open win B num_img images .DETECT a_ssize).calls) := by
  rw [tsk_img_open_valid_eq win B num_img images .DETECT a_ssize hn h0 hs]
  have hd : dispatchPhase win B num_img images .DETECT a_ssize =
      detectPhase win B num_img images a_ssize := rfl
  rw [hd, detectPhase_eq_aff_any win B num_img images a_ssize h e1 haff hany]
  rcases hE : B.ewf_open num_img images a_ssize e1 with ⟨oh2, e2⟩
  cases oh2 with
  | some h2 =>
    rw [detectEwfPhase_eq_first_match win B num_img images a_ssize e1 _ _ h2 e2
      hE, detectAfterProbes_some]
    refine ⟨by simp, ?_, ?_, ?_⟩
    · have := hfresh_ewf num_img images a_ssize e1
      rw [hE] at this
      simpa using this
    · intro h2x e2x hEx
      simp only [Prod.mk.injEq, Option.some.injEq] at hEx
      rw [← hEx.1]
      exact ⟨rfl, rfl⟩
    · intro e2x hEx
      simp at hEx
  | none =>
    rw [detectEwfPhase_eq_decline win B num_img images a_ssize _ e1 _ _ e2 hE]
    simp only [Option.map_none']
    rw [detectAfterProbes_none]
    refine ⟨?_, ?_, ?_, ?_⟩
    · rw [detectRawPhase_closed]
      simp
    · intro hr
      rcases detectRawPhase_ret_some win B num_img images a_ssize
          tsk_error_reset _ _ h hr with hc | hc
      · exact hfresh_raw _ _ _ hc
      · exact hfresh_split _ _ _ _ hc
    · intro h2x e2x hEx
      simp at hEx
    · intro e2x hEx
      exact detectRawPhase_has_rawsplit win B num_img images a_ssize
        tsk_error_reset _ _

/-- A backend set where AFF hands out the ANY variant and EWF matches. -/
def B_affany : Backends :=
  { B0 with
    aff_open := fun _ _ e => (some ⟨6, .AFF_ANY⟩, e)
  , ewf_open := fun _ _ _ e => (some ⟨3, .EWF_EWF⟩, e) }

theorem C6_aff_any_closed_not_counted_witness :
    B_affany.aff_open [some "a.img"] 0 tsk_error_reset =
      (some ⟨6, .AFF_ANY⟩, tsk_error_reset) ∧
    (⟨6, .AFF_ANY⟩ : TSK_IMG_INFO).itype = .AFF_ANY ∧
    ((⟨6, .AFF_ANY⟩ : TSK_IMG_INFO) ∈
      (tsk_img_open false B_affany 1 [some "a.img"] .DETECT 0).closed ∧
     (tsk_img_open false B_affany 1 [some "a.img"] .DETECT 0).ret ≠
       some ⟨6, .AFF_ANY⟩ ∧
     (∀ h2 e2, B_affany.ewf_open 1 [some "a.img"] 0 tsk_error_reset =
        (some h2, e2) →
       (tsk_img_open false B_affany 1 [some "a.img"] .DETECT 0).ret =
         some h2 ∧
       (tsk_img_open false B_affany 1 [some "a.img"] .DETECT 0).closed =
         [⟨6, .AFF_ANY⟩]) ∧
     (∀ e2, B_affany.ewf_open 1 [some "a.img"] 0 tsk_error_reset =
        (none, e2) →
       BackendCall.raw ∈
         (tsk_img_open false B_affany 1 [some "a.img"] .DETECT 0).calls ∨
       BackendCall.split ∈
         (tsk_img_open false B_affany 1 [some "a.img"] .DETECT 0).calls)) :=
  ⟨rfl, rfl,
   C6_aff_any_closed_not_counted false B_affany 1 [some "a.img"] 0
    ⟨6, .AFF_ANY⟩ tsk_error_reset (by decide) (by decide) (by decide) rfl rfl
    (fun _ _ _ _ => by intro hcon; simp [B_affany, B0] at hcon)
    (fun _ _ _ => by intro hcon; simp [B_affany, B0] at hcon)
    (fun _ _ _ _ => by intro hcon; simp [B_affany, B0] at hcon)⟩

/-- Claim C7: during autodetection, when no non-raw backend matched and the
raw/split fallback returned neither a handle nor an error, open(DETECT) stats
the first path: a failing stat yields code STAT with the path and the OS
reason in the message, unless (on a Windows/Cygwin build) the path starts
with the device-object prefix, in which case, as when the stat succeeds, the
result is UNKTYPE with both message strings empty.  The hypothesis `hprobes`
covers both ways in which no non-raw backend matches: both probes decline, or
the AFF probe returns the rejected ANY variant (closed, not counted as a
match) and the EWF probe declines. -/
theorem C7_stat_fallback_diagnosis (win : Bool) (B : Backends) (num_img : Nat)
    (images : List (Option String)) (a_ssize : Nat) (p : String) (efb : ErrCtx)
    (hn : num_img ≠ 0) (h0 : img0 images = some p) (hs : a_ssize % 512 = 0)
    (hprobes :
      ((B.aff_open images a_ssize tsk_error_reset).1 = none ∧
       (B.ewf_open num_img images a_ssize tsk_error_reset).1 = none) ∨
      (∃ hA e1, B.aff_open images a_ssize tsk_error_reset = (some hA, e1) ∧
        hA.itype = .AFF_ANY ∧
        (B.ewf_open num_img images a_ssize e1).1 = none))
    (hfb : (if num_img = 1 then B.raw_open (some p) a_ssize tsk_error_reset
            else B.split_open num_img images a_ssize tsk_error_reset) =
      (none, efb))
    (hefb : efb.errno = .noerr) :
    (tsk_img_open win B num_img images .DETECT a_ssize).ret = none ∧
    (B.tstat (some p) = false →
      (win && winObjPrefixMatch (some p)) = false →
      (tsk_img_open win B num_img images .DETECT a_ssize).err =
        ⟨.img_stat, p ++ " : " ++ B.strerror, ""⟩ ∧
      strContainsStr
        (tsk_img_open win B num_img images .DETECT a_ssize).err.errstr p ∧
      strContainsStr
        (tsk_img_open win B num_img images .DETECT a_ssize).err.errstr
        B.strerror) ∧
    (B.tstat (some p) = false →
      (win && winObjPrefixMatch (some p)) = true →
      (tsk_img_open win B num_img images .DETECT a_ssize).err =
        ⟨.img_unktype, "", ""⟩) ∧
    (B.tstat (some p) = true →
      (tsk_img_open win B num_img images .DETECT a_ssize).err =
        ⟨.img_unktype, "", ""⟩) := by
  have key : ∃ cs cl, tsk_img_open win B num_img images .DETECT a_ssize =
      detectStatPhase win B images cs cl := by
    rw [tsk_img_open_valid_eq win B num_img images .DETECT a_ssize hn
      (by rw [h0]; simp) hs]
    have hd : dispatchPhase win B num_img images .DETECT a_ssize =
        detectPhase win B num_img images a_ssize := rfl
    rw [hd]
    rcases hprobes with ⟨haff, hewf⟩ | ⟨hA, e1, haffA, hany, hewfA⟩
    · have haff2 : B.aff_open images a_ssize tsk_error_reset =
          (none, (B.aff_open images a_ssize tsk_error_reset).2) := by
        rw [← haff]
      have hewf2 : B.ewf_open num_img images a_ssize tsk_error_reset =
          (none, (B.ewf_open num_img images a_ssize tsk_error_reset).2) := by
        rw [← hewf]
      rw [detectPhase_eq_aff_decline win B num_img images a_ssize _ haff2,
        detectEwfPhase_eq_decline win B num_img images a_ssize _ _ _ _ _
          hewf2]
      simp only [Option.map_none']
      rw [detectAfterProbes_none]
      by_cases hn1 : num_img = 1
      · rw [if_pos hn1] at hfb
        exact ⟨_, _, detectRawPhase_eq_raw_noerr win B num_img images a_ssize
          tsk_error_reset _ _ efb hn1 (by rw [h0]; exact hfb) hefb⟩
      · rw [if_neg hn1] at hfb
        exact ⟨_, _, detectRawPhase_eq_split_noerr win B num_img images
          a_ssize tsk_error_reset _ _ efb hn1 hfb hefb⟩
    · have hewf2 : B.ewf_open num_img images a_ssize e1 =
          (none, (B.ewf_open num_img images a_ssize e1).2) := by
        rw [← hewfA]
      rw [detectPhase_eq_aff_any win B num_img images a_ssize hA e1 haffA
          hany,
        detectEwfPhase_eq_decline win B num_img images a_ssize _ e1 _ _ _
          hewf2]
      simp only [Option.map_none']
      rw [detectAfterProbes_none]
      by_cases hn1 : num_img = 1
      · rw [if_pos hn1] at hfb
        exact ⟨_, _, detectRawPhase_eq_raw_noerr win B num_img images a_ssize
          tsk_error_reset _ _ efb hn1 (by rw [h0]; exact hfb) hefb⟩
      · rw [if_neg hn1] at hfb
        exact ⟨_, _, detectRawPhase_eq_split_noerr win B num_img images
          a_ssize tsk_error_reset _ _ efb hn1 hfb hefb⟩
  rcases key with ⟨cs, cl, hkey⟩
  rw [hkey]
  refine ⟨detectStatPhase_ret _ _ _ _ _, ?_, ?_, ?_⟩
  · intro h1 h2
    rw [detectStatPhase_eq_statfail win B images cs cl
      (by rw [h0]; exact h1) (by rw [h0]; exact h2)]
    rw [h0]
    refine ⟨rfl, ?_, ?_⟩
    · exact strContainsStr_absorb_right _ _ _
        (strContainsStr_absorb_right _ _ _
          (by simpa using strContainsStr_self p))
    · exact strContainsStr_absorb_left _ _ _ (strContainsStr_self _)
  · intro h1 h2
    rw [detectStatPhase_eq_statfail_winobj win B images cs cl
      (by rw [h0]; exact h1) (by rw [h0]; exact h2)]
  · intro h1
    rw [detectStatPhase_eq_statok win B images cs cl (by rw [h0]; exact h1)]

/-- A backend set where everything declines and the stat call fails. -/
def B_statfail : Backends := { B0 with tstat := fun _ => false }

theorem C7_stat_fallback_diagnosis_witness :
    ((B_statfail.aff_open [some "img.dd"] 0 tsk_error_reset).1 = none ∧
     (B_statfail.ewf_open 1 [some "img.dd"] 0 tsk_error_reset).1 = none) ∧
    (if (1 : Nat) = 1 then B_statfail.raw_open (some "img.dd") 0 tsk_error_reset
     else B_statfail.split_open 1 [some "img.dd"] 0 tsk_error_reset) =
      (none, tsk_error_reset) ∧
    ((tsk_img_open false B_statfail 1 [some "img.dd"] .DETECT 0).ret = none ∧
     (B_statfail.tstat (some "img.dd") = false →
       (false && winObjPrefixMatch (some "img.dd")) = false →
       (tsk_img_open false B_statfail 1 [some "img.dd"] .DETECT 0).err =
         ⟨.img_stat, "img.dd" ++ " : " ++ B_statfail.strerror, ""⟩ ∧
       strContainsStr
         (tsk_img_open false B_statfail 1 [some "img.dd"] .DETECT 0).err.errstr
         "img.dd" ∧
       strContainsStr
         (tsk_img_open false B_statfail 1 [some "img.dd"] .DETECT 0).err.errstr
         B_statfail.strerror) ∧
     (B_statfail.tstat (some "img.dd") = false →
       (false && winObjPrefixMatch (some "img.dd")) = true →
       (tsk_img_open false B_statfail 1 [some "img.dd"] .DETECT 0).err =
         ⟨.img_unktype, "", ""⟩) ∧
     (B_statfail.tstat (some "img.dd") = true →
       (tsk_img_open false B_statfail 1 [some "img.dd"] .DETECT 0).err =
         ⟨.img_unktype, "", ""⟩)) :=
  ⟨⟨rfl, rfl⟩, rfl,
   C7_stat_fallback_diagnosis false B_statfail 1 [some "img.dd"] 0 "img.dd"
    tsk_error_reset (by decide) rfl (by decide) (Or.inl ⟨rfl, rfl⟩) rfl rfl⟩

theorem ewf_mem_calls_detectEwfPhase (win : Bool) (B : Backends)
    (num_img : Nat) (images : List (Option String)) (a_ssize : Nat)
    (cand : Option (String × TSK_IMG_INFO)) (e : ErrCtx)
    (calls : List BackendCall) (closed : List TSK_IMG_INFO) :
    BackendCall.ewf ∈
      (detectEwfPhase win B num_img images a_ssize cand e calls closed).calls := by
  unfold detectEwfPhase
  split
  · cases cand with
    | none => exact mem_calls_detectAfterProbes _ _ _ _ _ _ _ _ _ _ (by simp)
    | some cc => simp
  · exact mem_calls_detectAfterProbes _ _ _ _ _ _ _ _ _ _ (by simp)

/-- A backend set whose AFF probe declines while setting a genuine error, and
whose raw backend succeeds. -/
def B_afferr : Backends :=
  { B0 with
    aff_open := fun _ _ _ => (none, ⟨.backend 7, "aff: read failure", ""⟩)
  , raw_open := fun _ _ e => (some ⟨1, .RAW_SING⟩, e) }

/-- Claim C1 counterexample: the AFF probe returns no handle and leaves a
genuine error in the Error Context, yet open(DETECT) does not fail with that
error: it resets the context, tries the remaining backends, and here returns
the raw handle with a clean error context. -/
theorem C1_counterexample :
    (B_afferr.aff_open [some "img.dd"] 0 tsk_error_reset).1 = none ∧
    (B_afferr.aff_open [some "img.dd"] 0 tsk_error_reset).2.errno ≠ .noerr ∧
    (tsk_img_open false B_afferr 1 [some "img.dd"] .DETECT 0).ret =
      some ⟨1, .RAW_SING⟩ ∧
    (tsk_img_open false B_afferr 1 [some "img.dd"] .DETECT 0).err.errno =
      .noerr := by decide

/-- Claim C1 (amended): during autodetection a non-raw probe (aff_open or
ewf_open) that returns no handle has its error discarded: the Error Context
is reset and detection proceeds, whatever error the probe left behind, and
only errors set by the raw/split fallback are propagated.  Conjunct one: the
outcome does not depend on the error context the AFF probe leaves on decline,
and the EWF probe is still invoked.  Conjunct two: the outcome does not
depend on the error context the EWF probe leaves on decline, and detection
proceeds to the raw/split fallback unless a positive non-raw match is
returned instead.  Conjunct three: an error set by the raw/split fallback is
propagated as the failure outcome. -/
theorem C1_amended_decline_error_discarded (win : Bool) (B : Backends)
    (num_img : Nat) (images : List (Option String)) (a_ssize : Nat)
    (hn : num_img ≠ 0) (h0 : img0 images ≠ none) (hs : a_ssize % 512 = 0) :
    (∀ (g g' : List (Option String) → Nat → ErrCtx →
        Option TSK_IMG_INFO × ErrCtx) (e e' : ErrCtx),
      g images a_ssize tsk_error_reset = (none, e) →
      g' images a_ssize tsk_error_reset = (none, e') →
      tsk_img_open win { B with aff_open := g } num_img images .DETECT
          a_ssize =
        tsk_img_open win { B with aff_open := g' } num_img images .DETECT
          a_ssize ∧
      BackendCall.ewf ∈
        (tsk_img_open win { B with aff_open := g } num_img images .DETECT
          a_ssize).calls) ∧
    (∀ (k k' : Nat → List (Option String) → Nat → ErrCtx →
        Option TSK_IMG_INFO × ErrCtx),
      (∀ n im ss c, (k n im ss c).1 = none) →
      (∀ n im ss c, (k' n im ss c).1 = none) →
      tsk_img_open win { B with ewf_open := k } num_img images .DETECT
          a_ssize =
        tsk_img_open win { B with ewf_open := k' } num_img images .DETECT
          a_ssize ∧
      (BackendCall.raw ∈
        (tsk_img_open win { B with ewf_open := k } num_img images .DETECT
          a_ssize).calls ∨
       BackendCall.split ∈
        (tsk_img_open win { B with ewf_open := k } num_img images .DETECT
          a_ssize).calls ∨
       (∃ h e1, B.aff_open images a_ssize tsk_error_reset = (some h, e1) ∧
         h.itype ≠ .AFF_ANY ∧
         (tsk_img_open win { B with ewf_open := k } num_img images .DETECT
           a_ssize).ret = some h))) ∧
    (∀ ef : ErrCtx,
      (B.aff_open images a_ssize tsk_error_reset).1 = none →
      (B.ewf_open num_img images a_ssize tsk_error_reset).1 = none →
      (if num_img = 1 then B.raw_open (img0 images) a_ssize tsk_error_reset
       else B.split_open num_img images a_ssize tsk_error_reset) =
        (none, ef) →
      ef.errno ≠ .noerr →
      (tsk_img_open win B num_img images .DETECT a_ssize).ret = none ∧
      (tsk_img_open win B num_img images .DETECT a_ssize).err = ef) := by
  refine ⟨?_, ?_, ?_⟩
  · intro g g' e e' hg hg'
    rw [tsk_img_open_valid_eq win { B with aff_open := g } num_img images
        .DETECT a_ssize hn h0 hs,
      tsk_img_open_valid_eq win { B with aff_open := g' } num_img images
        .DETECT a_ssize hn h0 hs]
    have hd1 : dispatchPhase win { B with aff_open := g } num_img images
        .DETECT a_ssize =
        detectPhase win { B with aff_open := g } num_img images a_ssize := rfl
    have hd2 : dispatchPhase win { B with aff_open := g' } num_img images
        .DETECT a_ssize =
        detectPhase win { B with aff_open := g' } num_img images a_ssize :=
      rfl
    rw [hd1, hd2,
      detectPhase_eq_aff_decline win { B with aff_open := g } num_img images
        a_ssize e hg,
      detectPhase_eq_aff_decline win { B with aff_open := g' } num_img images
        a_ssize e' hg']
    exact ⟨rfl, ewf_mem_calls_detectEwfPhase _ _ _ _ _ _ _ _ _⟩
  · intro k k' hk hk'
    rw [tsk_img_open_valid_eq win { B with ewf_open := k } num_img images
        .DETECT a_ssize hn h0 hs,
      tsk_img_open_valid_eq win { B with ewf_open := k' } num_img images
        .DETECT a_ssize hn h0 hs]
    have hd1 : dispatchPhase win { B with ewf_open := k } num_img images
        .DETECT a_ssize =
        detectPhase win { B with ewf_open := k } num_img images a_ssize := rfl
    have hd2 : dispatchPhase win { B with ewf_open := k' } num_img images
        .DETECT a_ssize =
        detectPhase win { B with ewf_open := k' } num_img images a_ssize :=
      rfl
    rw [hd1, hd2]
    rcases hA : B.aff_open images a_ssize tsk_error_reset with ⟨oh, e1⟩
    cases oh with
    | none =>
      have hkd : k num_img images a_ssize tsk_error_reset =
          (none, (k num_img images a_ssize tsk_error_reset).2) := by
        rw [← hk num_img images a_ssize tsk_error_reset]
      have hkd' : k' num_img images a_ssize tsk_error_reset =
          (none, (k' num_img images a_ssize tsk_error_reset).2) := by
        rw [← hk' num_img images a_ssize tsk_error_reset]
      rw [detectPhase_eq_aff_decline win { B with ewf_open := k } num_img
          images a_ssize e1 hA,
        detectPhase_eq_aff_decline win { B with ewf_open := k' } num_img
          images a_ssize e1 hA,
        detectEwfPhase_eq_decline win { B with ewf_open := k } num_img images
          a_ssize none tsk_error_reset _ _ _ hkd,
        detectEwfPhase_eq_decline win { B with ewf_open := k' } num_img
          images a_ssize none tsk_error_reset _ _ _ hkd']
      simp only [Option.map_none']
      rw [detectAfterProbes_none, detectAfterProbes_none]
      refine ⟨rfl, ?_⟩
      rcases detectRawPhase_has_rawsplit win { B with ewf_open := k } num_img
          images a_ssize tsk_error_reset
          ([BackendCall.aff] ++ [BackendCall.ewf]) [] with hm | hm
      · exact Or.inl hm
      · exact Or.inr (Or.inl hm)
    | some h =>
      by_cases hany : h.itype = .AFF_ANY
      · have hkd : k num_img images a_ssize e1 =
            (none, (k num_img images a_ssize e1).2) := by
          rw [← hk num_img images a_ssize e1]
        have hkd' : k' num_img images a_ssize e1 =
            (none, (k' num_img images a_ssize e1).2) := by
          rw [← hk' num_img images a_ssize e1]
        rw [detectPhase_eq_aff_any win { B with ewf_open := k } num_img
            images a_ssize h e1 hA hany,
          detectPhase_eq_aff_any win { B with ewf_open := k' } num_img images
            a_ssize h e1 hA hany,
          detectEwfPhase_eq_decline win { B with ewf_open := k } num_img
            images a_ssize none e1 _ _ _ hkd,
          detectEwfPhase_eq_decline win { B with ewf_open := k' } num_img
            images a_ssize none e1 _ _ _ hkd']
        simp only [Option.map_none']
        rw [detectAfterProbes_none, detectAfterProbes_none]
        refine ⟨rfl, ?_⟩
        rcases detectRawPhase_has_rawsplit win { B with ewf_open := k }
            num_img images a_ssize tsk_error_reset
            ([BackendCall.aff] ++ [BackendCall.ewf]) [h] with hm | hm
        · exact Or.inl hm
        · exact Or.inr (Or.inl hm)
      · have hkd : k num_img images a_ssize e1 =
            (none, (k num_img images a_ssize e1).2) := by
          rw [← hk num_img images a_ssize e1]
        have hkd' : k' num_img images a_ssize e1 =
            (none, (k' num_img images a_ssize e1).2) := by
          rw [← hk' num_img images a_ssize e1]
        rw [detectPhase_eq_aff_match win { B with ewf_open := k } num_img
            images a_ssize h e1 hA hany,
          detectPhase_eq_aff_match win { B with ewf_open := k' } num_img
            images a_ssize h e1 hA hany,
          detectEwfPhase_eq_decline win { B with ewf_open := k } num_img
            images a_ssize (some ("AFF", h)) e1 _ _ _ hkd,
          detectEwfPhase_eq_decline win { B with ewf_open := k' } num_img
            images a_ssize (some ("AFF", h)) e1 _ _ _ hkd']
        simp only [Option.map_some']
        rw [detectAfterProbes_some, detectAfterProbes_some]
        exact ⟨rfl, Or.inr (Or.inr ⟨h, e1, rfl, hany, rfl⟩)⟩
  · intro ef ha he hfb hne
    have haff2 : B.aff_open images a_ssize tsk_error_reset =
        (none, (B.aff_open images a_ssize tsk_error_reset).2) := by
      rw [← ha]
    have hewf2 : B.ewf_open num_img images a_ssize tsk_error_reset =
        (none, (B.ewf_open num_img images a_ssize tsk_error_reset).2) := by
      rw [← he]
    rw [tsk_img_open_valid_eq win B num_img images .DETECT a_ssize hn h0 hs]
    have hd : dispatchPhase win B num_img images .DETECT a_ssize =
        detectPhase win B num_img images a_ssize := rfl
    rw [hd, detectPhase_eq_aff_decline win B num_img images a_ssize _ haff2,
      detectEwfPhase_eq_decline win B num_img images a_ssize none
        tsk_error_reset _ _ _ hewf2]
    simp only [Option.map_none']
    rw [detectAfterProbes_none]
    by_cases hn1 : num_img = 1
    · rw [if_pos hn1] at hfb
      rw [detectRawPhase_eq_raw_err win B num_img images a_ssize
        tsk_error_reset _ _ ef hn1 hfb hne]
      exact ⟨rfl, rfl⟩
    · rw [if_neg hn1] at hfb
      rw [detectRawPhase_eq_split_err win B num_img images a_ssize
        tsk_error_reset _ _ ef hn1 hfb hne]
      exact ⟨rfl, rfl⟩

/-- An AFF probe that declines while setting a genuine error. -/
def aff_declines_err :
    List (Option String) → Nat → ErrCtx → Option TSK_IMG_INFO × ErrCtx :=
  fun _ _ _ => (none, ⟨.backend 7, "aff: read failure", ""⟩)

/-- An AFF probe that declines leaving the error context untouched. -/
def aff_declines_clean :
    List (Option String) → Nat → ErrCtx → Option TSK_IMG_INFO × ErrCtx :=
  fun _ _ e => (none, e)

/-- An EWF probe that declines while setting a genuine error. -/
def ewf_declines_err :
    Nat → List (Option String) → Nat → ErrCtx → Option TSK_IMG_INFO × ErrCtx :=
  fun _ _ _ _ => (none, ⟨.backend 8, "ewf: read failure", ""⟩)

/-- An EWF probe that declines leaving the error context untouched. -/
def ewf_declines_clean :
    Nat → List (Option String) → Nat → ErrCtx → Option TSK_IMG_INFO × ErrCtx :=
  fun _ _ _ e => (none, e)

/-- A backend set whose probes decline and whose raw fallback fails with a
genuine error. -/
def B_rawerr : Backends :=
  { B0 with raw_open := fun _ _ _ => (none, ⟨.backend 9, "raw: io error", ""⟩) }

theorem C1_amended_decline_error_discarded_witness :
    aff_declines_err [some "img.dd"] 0 tsk_error_reset =
      (none, ⟨.backend 7, "aff: read failure", ""⟩) ∧
    aff_declines_clean [some "img.dd"] 0 tsk_error_reset =
      (none, tsk_error_reset) ∧
    (tsk_img_open false { B_rawerr with aff_open := aff_declines_err } 1
        [some "img.dd"] .DETECT 0 =
      tsk_img_open false { B_rawerr with aff_open := aff_declines_clean } 1
        [some "img.dd"] .DETECT 0 ∧
     BackendCall.ewf ∈
       (tsk_img_open false { B_rawerr with aff_open := aff_declines_err } 1
         [some "img.dd"] .DETECT 0).calls) ∧
    (tsk_img_open false { B_rawerr with ewf_open := ewf_declines_err } 1
        [some "img.dd"] .DETECT 0 =
      tsk_img_open false { B_rawerr with ewf_open := ewf_declines_clean } 1
        [some "img.dd"] .DETECT 0 ∧
     (BackendCall.raw ∈
        (tsk_img_open false { B_rawerr with ewf_open := ewf_declines_err } 1
          [some "img.dd"] .DETECT 0).calls ∨
      BackendCall.split ∈
        (tsk_img_open false { B_rawerr with ewf_open := ewf_declines_err } 1
          [some "img.dd"] .DETECT 0).calls ∨
      (∃ h e1, B_rawerr.aff_open [some "img.dd"] 0 tsk_error_reset =
          (some h, e1) ∧
        h.itype ≠ .AFF_ANY ∧
        (tsk_img_open false { B_rawerr with ewf_open := ewf_declines_err } 1
          [some "img.dd"] .DETECT 0).ret = some h))) ∧
    ((tsk_img_open false B_rawerr 1 [some "img.dd"] .DETECT 0).ret = none ∧
     (tsk_img_open false B_rawerr 1 [some "img.dd"] .DETECT 0).err =
       ⟨.backend 9, "raw: io error", ""⟩) :=
  ⟨rfl, rfl,
   (C1_amended_decline_error_discarded false B_rawerr 1 [some "img.dd"] 0
      (by decide) (by decide) (by decide)).1
    aff_declines_err aff_declines_clean _ _ rfl rfl,
   (C1_amended_decline_error_discarded false B_rawerr 1 [some "img.dd"] 0
      (by decide) (by decide) (by decide)).2.1
    ewf_declines_err ewf_declines_clean (fun _ _ _ _ => rfl)
    (fun _ _ _ _ => rfl),
   (C1_amended_decline_error_discarded false B_rawerr 1 [some "img.dd"] 0
      (by decide) (by decide) (by decide)).2.2
    ⟨.backend 9, "raw: io error", ""⟩ rfl rfl rfl (by decide)⟩

/-- A backend set where both AFF and EWF positively match. -/
def B_both : Backends :=
  { B0 with
    aff_open := fun _ _ e => (some ⟨2, .AFF_AFF⟩, e)
  , ewf_open := fun _ _ _ e => (some ⟨3, .EWF_EWF⟩, e) }

/-- Claim C2 counterexample: on an ambiguous match the failure has code
UNKTYPE and both handles are closed, but the two format names are written to
the primary message (tsk_errstr, here "EWF or AFF"), not to the secondary
message (tsk_errstr2), which is empty and contains neither name. -/
theorem C2_counterexample :
    (tsk_img_open false B_both 1 [some "img.e01"] .DETECT 0).ret = none ∧
    (tsk_img_open false B_both 1 [some "img.e01"] .DETECT 0).err.errno =
      .img_unktype ∧
    (⟨2, .AFF_AFF⟩ : TSK_IMG_INFO) ∈
      (tsk_img_open false B_both 1 [some "img.e01"] .DETECT 0).closed ∧
    (⟨3, .EWF_EWF⟩ : TSK_IMG_INFO) ∈
      (tsk_img_open false B_both 1 [some "img.e01"] .DETECT 0).closed ∧
    (tsk_img_open false B_both 1 [some "img.e01"] .DETECT 0).err.errstr =
      "EWF or AFF" ∧
    (tsk_img_open false B_both 1 [some "img.e01"] .DETECT 0).err.errstr2 =
      "" ∧
    ¬ strContainsStr
      (tsk_img_open false B_both 1 [some "img.e01"] .DETECT 0).err.errstr2
      "AFF" ∧
    ¬ strContainsStr
      (tsk_img_open false B_both 1 [some "img.e01"] .DETECT 0).err.errstr2
      "EWF" := by decide

/-- Claim C2 (amended): when two distinct proprietary backends both positively
match during autodetection, open(DETECT) returns no handle, the code is
UNKTYPE, the PRIMARY message (tsk_errstr) contains both format names ("EWF or
AFF"), the secondary message is empty, and exactly the two candidate handles
are closed before the function returns. -/
theorem C2_amended_ambiguous_unktype (win : Bool) (B : Backends)
    (num_img : Nat) (images : List (Option String)) (a_ssize : Nat)
    (h1 : TSK_IMG_INFO) (e1 : ErrCtx) (h2 : TSK_IMG_INFO) (e2 : ErrCtx)
    (hn : num_img ≠ 0) (h0 : img0 images ≠ none) (hs : a_ssize % 512 = 0)
    (haff : B.aff_open images a_ssize tsk_error_reset = (some h1, e1))
    (hne : h1.itype ≠ .AFF_ANY)
    (hewf : B.ewf_open num_img images a_ssize e1 = (some h2, e2)) :
    (tsk_img_open win B num_img images .DETECT a_ssize).ret = none ∧
    (tsk_img_open win B num_img images .DETECT a_ssize).err.errno =
      .img_unktype ∧
    (tsk_img_open win B num_img images .DETECT a_ssize).err.errstr =
      "EWF or AFF" ∧
    strContainsStr
      (tsk_img_open win B num_img images .DETECT a_ssize).err.errstr "EWF" ∧
    strContainsStr
      (tsk_img_open win B num_img images .DETECT a_ssize).err.errstr "AFF" ∧
    (tsk_img_open win B num_img images .DETECT a_ssize).err.errstr2 = "" ∧
    (tsk_img_open win B num_img images .DETECT a_ssize).closed = [h1, h2] := by
  rw [tsk_img_open_valid_eq win B num_img images .DETECT a_ssize hn h0 hs]
  have hd : dispatchPhase win B num_img images .DETECT a_ssize =
      detectPhase win B num_img images a_ssize := rfl
  rw [hd, detectPhase_eq_aff_match win B num_img images a_ssize h1 e1 haff hne,
    detectEwfPhase_eq_ambiguous win B num_img images a_ssize ("AFF", h1) e1
      _ _ h2 e2 hewf]
  refine ⟨rfl, rfl, ?_, ?_, ?_, rfl, by simp⟩
  · show ("EWF or " ++ "AFF" : String) = "EWF or AFF"
    decide
  · show strContainsStr ("EWF or " ++ "AFF") "EWF"
    decide
  · show strContainsStr ("EWF or " ++ "AFF") "AFF"
    decide

theorem C2_amended_ambiguous_unktype_witness :
    B_both.aff_open [some "img.e01"] 0 tsk_error_reset =
      (some ⟨2, .AFF_AFF⟩, tsk_error_reset) ∧
    B_both.ewf_open 1 [some "img.e01"] 0 tsk_error_reset =
      (some ⟨3, .EWF_EWF⟩, tsk_error_reset) ∧
    ((tsk_img_open false B_both 1 [some "img.e01"] .DETECT 0).ret = none ∧
     (tsk_img_open false B_both 1 [some "img.e01"] .DETECT 0).err.errno =
       .img_unktype ∧
     (tsk_img_open false B_both 1 [some "img.e01"] .DETECT 0).err.errstr =
       "EWF or AFF" ∧
     strContainsStr
       (tsk_img_open false B_both 1 [some "img.e01"] .DETECT 0).err.errstr
       "EWF" ∧
     strContainsStr
       (tsk_img_open false B_both 1 [some "img.e01"] .DETECT 0).err.errstr
       "AFF" ∧
     (tsk_img_open false B_both 1 [some "img.e01"] .DETECT 0).err.errstr2 =
       "" ∧
     (tsk_img_open false B_both 1 [some "img.e01"] .DETECT 0).closed =
       [⟨2, .AFF_AFF⟩, ⟨3, .EWF_EWF⟩]) :=
  ⟨rfl, rfl,
   C2_amended_ambiguous_unktype false B_both 1 [some "img.e01"] 0
    ⟨2, .AFF_AFF⟩ tsk_error_reset ⟨3, .EWF_EWF⟩ tsk_error_reset
    (by decide) (by decide) (by decide) rfl (by decide) rfl⟩

/-- A backend set whose raw and split backends always succeed. -/
def B_rawok : Backends :=
  { B0 with
    raw_open := fun _ _ e => (some ⟨5, .RAW_SING⟩, e)
  , split_open := fun _ _ _ e => (some ⟨4, .RAW_SPLIT⟩, e) }

/-- Claim C4 counterexample: with sector size 700 the validation rejects the
call before any backend is reached, so open(RAW_SING) with two paths fails
while a direct call to the split backend on the same arguments succeeds (and
likewise open(RAW_SPLIT) with one path versus the raw backend): the claimed
equivalence does not hold for every sector size. -/
theorem C4_counterexample :
    (tsk_img_open false B_rawok 2 [some "a", some "b"] .RAW_SING 700).ret =
      none ∧
    (B_rawok.split_open 2 [some "a", some "b"] 700 tsk_error_reset).1.isSome =
      true ∧
    (tsk_img_open false B_rawok 1 [some "a"] .RAW_SPLIT 700).ret = none ∧
    (B_rawok.raw_open (some "a") 700 tsk_error_reset).1.isSome = true := by
  decide

/-- Claim C4 (amended): once the path-list and sector-size validation passes
(non-empty path list with a non-null first entry, sector size 0 or a multiple
of 512), open(RAW_SING) with more than one path returns exactly the handle
and error context of the direct split backend call on those paths, and
open(RAW_SPLIT) with exactly one path returns exactly those of the direct
single-file raw backend call. -/
theorem C4_amended_raw_routing (win : Bool) (B : Backends) (num_img : Nat)
    (images : List (Option String)) (a_ssize : Nat)
    (hn : num_img ≠ 0) (h0 : img0 images ≠ none) (hs : a_ssize % 512 = 0) :
    (1 < num_img →
      (tsk_img_open win B num_img images .RAW_SING a_ssize).ret =
        (B.split_open num_img images a_ssize tsk_error_reset).1 ∧
      (tsk_img_open win B num_img images .RAW_SING a_ssize).err =
        (B.split_open num_img images a_ssize tsk_error_reset).2) ∧
    (num_img = 1 →
      (tsk_img_open win B num_img images .RAW_SPLIT a_ssize).ret =
        (B.raw_open (img0 images) a_ssize tsk_error_reset).1 ∧
      (tsk_img_open win B num_img images .RAW_SPLIT a_ssize).err =
        (B.raw_open (img0 images) a_ssize tsk_error_reset).2) := by
  constructor
  · intro hq
    rw [tsk_img_open_valid_eq win B num_img images .RAW_SING a_ssize hn h0 hs]
    have hd : dispatchPhase win B num_img images .RAW_SING a_ssize =
        if 1 < num_img then
          mkExplicit (B.split_open num_img images a_ssize tsk_error_reset)
            .split
        else
          mkExplicit (B.raw_open (img0 images) a_ssize tsk_error_reset)
            .raw := rfl
    rw [hd, if_pos hq]
    exact ⟨rfl, rfl⟩
  · intro hq
    rw [tsk_img_open_valid_eq win B num_img images .RAW_SPLIT a_ssize hn h0 hs]
    have hd : dispatchPhase win B num_img images .RAW_SPLIT a_ssize =
        if num_img = 1 then
          mkExplicit (B.raw_open (img0 images) a_ssize tsk_error_reset) .raw
        else
          mkExplicit (B.split_open num_img images a_ssize tsk_error_reset)
            .split := rfl
    rw [hd, if_pos hq]
    exact ⟨rfl, rfl⟩

theorem C4_amended_raw_routing_witness :
    ((2 : Nat) ≠ 0) ∧ (img0 [some "a", some "b"] ≠ none) ∧
    ((0 : Nat) % 512 = 0) ∧
    ((1 < 2 →
      (tsk_img_open false B_rawok 2 [some "a", some "b"] .RAW_SING 0).ret =
        (B_rawok.split_open 2 [some "a", some "b"] 0 tsk_error_reset).1 ∧
      (tsk_img_open false B_rawok 2 [some "a", some "b"] .RAW_SING 0).err =
        (B_rawok.split_open 2 [some "a", some "b"] 0 tsk_error_reset).2) ∧
    ((2 : Nat) = 1 →
      (tsk_img_open false B_rawok 2 [some "a", some "b"] .RAW_SPLIT 0).ret =
        (B_rawok.raw_open (img0 [some "a", some "b"]) 0 tsk_error_reset).1 ∧
      (tsk_img_open false B_rawok 2 [some "a", some "b"] .RAW_SPLIT 0).err =
        (B_rawok.raw_open (img0 [some "a", some "b"]) 0 tsk_error_reset).2)) :=
  ⟨by decide, by decide, by decide,
   C4_amended_raw_routing false B_rawok 2 [some "a", some "b"] 0
    (by decide) (by decide) (by decide)⟩

theorem convertAll_first_error (conv : String → Except Nat String)
    (pre : List String) (p : String) (post : List String) (c : Nat)
    (hpre : ∀ q ∈ pre, ∃ s, conv q = .ok s) (hp : conv p = .error c) :
    convertAll conv (pre ++ p :: post) = (.error (p, c), pre ++ [p]) := by
  induction pre with
  | nil =>
    simp only [List.nil_append]
    unfold convertAll
    rw [hp]
  | cons q qs ih =>
    obtain ⟨s, hq⟩ := hpre q (by simp)
    have ih2 := ih (fun x hx => hpre x (by simp [hx]))
    simp only [List.cons_append]
    unfold convertAll
    rw [hq]
    simp only [ih2]

/-- Claim C9: in the UTF-8 entry point on the conversion platform, the first
failing path conversion makes the call fail with CONVERT, a message naming the
offending path and the conversion status code, no backend invoked, and no
later path converted (exactly the paths up to and including the failing one
were handed to the converter). -/
theorem C9_utf8_convert_failure (conv : String → Except Nat String)
    (B : Backends) (num_img : Nat) (images : List String)
    (type : TSK_IMG_TYPE_ENUM) (a_ssize : Nat) (e0 : ErrCtx)
    (pre post : List String) (p : String) (c : Nat)
    (hsplit : images.take num_img = pre ++ p :: post)
    (hpre : ∀ q ∈ pre, ∃ s, conv q = .ok s)
    (hp : conv p = .error c) :
    (tsk_img_open_utf8 true conv B num_img images type a_ssize e0).res.ret =
      none ∧
    (tsk_img_open_utf8 true conv B num_img images type a_ssize
      e0).res.err.errno = .img_convert ∧
    (tsk_img_open_utf8 true conv B num_img images type a_ssize
      e0).res.err.errstr =
      "tsk_img_open_utf8: Error converting image " ++ p ++ " "
        ++ toString c ∧
    strContainsStr
      (tsk_img_open_utf8 true conv B num_img images type a_ssize
        e0).res.err.errstr p ∧
    (tsk_img_open_utf8 true conv B num_img images type a_ssize
      e0).res.calls = [] ∧
    (tsk_img_open_utf8 true conv B num_img images type a_ssize
      e0).convCalls = pre ++ [p] := by
  unfold tsk_img_open_utf8
  rw [hsplit, convertAll_first_error conv pre p post c hpre hp]
  exact ⟨rfl, rfl, rfl,
    strContainsStr_absorb_right _ _ _
      (strContainsStr_absorb_right _ _ _
        (strContainsStr_absorb_left _ _ _ (strContainsStr_self p))),
    rfl, rfl⟩

/-- A converter that fails on the path "bad" with status code 2. -/
def convW : String → Except Nat String :=
  fun s => if s = "bad" then .error 2 else .ok s

theorem C9_utf8_convert_failure_witness :
    (["good", "bad"].take 2 = ["good"] ++ "bad" :: []) ∧
    (convW "bad" = .error 2) ∧
    ((tsk_img_open_utf8 true convW B0 2 ["good", "bad"] .DETECT 0
        tsk_error_reset).res.ret = none ∧
     (tsk_img_open_utf8 true convW B0 2 ["good", "bad"] .DETECT 0
        tsk_error_reset).res.err.errno = .img_convert ∧
     (tsk_img_open_utf8 true convW B0 2 ["good", "bad"] .DETECT 0
        tsk_error_reset).res.err.errstr =
       "tsk_img_open_utf8: Error converting image " ++ "bad" ++ " "
         ++ toString 2 ∧
     strContainsStr
       (tsk_img_open_utf8 true convW B0 2 ["good", "bad"] .DETECT 0
         tsk_error_reset).res.err.errstr "bad" ∧
     (tsk_img_open_utf8 true convW B0 2 ["good", "bad"] .DETECT 0
        tsk_error_reset).res.calls = [] ∧
     (tsk_img_open_utf8 true convW B0 2 ["good", "bad"] .DETECT 0
        tsk_error_reset).convCalls = ["good"] ++ ["bad"]) :=
  ⟨rfl, rfl,
   C9_utf8_convert_failure convW B0 2 ["good", "bad"] .DETECT 0
    tsk_error_reset ["good"] [] "bad" 2 rfl
    (by
      intro q hq
      simp only [List.mem_singleton] at hq
      subst hq
      exact ⟨"good", rfl⟩)
    rfl⟩
